import Mathlib

/-!
Verification of the mileage-tracker client (three JavaScript rewrites:
`src/mileage_app/static/app.js`, `src/unnamed/part_000`, `src/unnamed/part_001`)
against its natural-language specification.

JavaScript numbers are modelled by exact rationals (`ℚ`); strings by `String`;
JSON values by the inductive `JsVal`; `null`/`undefined` slots by `Option`.
-/

namespace Mileage

/-- Model of a JavaScript JSON value as produced by `JSON.parse`. -/
inductive JsVal : Type where
  | null : JsVal
  | bool : Bool → JsVal
  | num : ℚ → JsVal
  | str : String → JsVal
  | arr : List JsVal → JsVal
  | obj : List (String × JsVal) → JsVal

/-- JavaScript truthiness of a value (`null`, `false`, `0`, `""` are falsy;
arrays and objects are always truthy). -/
def truthy : JsVal → Bool
  | .null => false
  | .bool b => b
  | .num q => q != 0
  | .str s => s != ""
  | .arr _ => true
  | .obj _ => true

/-- Property access `v.k` in JavaScript: a field lookup on an object,
`undefined` (modelled `none`) on every other value. -/
def getField (v : JsVal) (k : String) : Option JsVal :=
  match v with
  | .obj fields => fields.lookup k
  | _ => none

/-- The JavaScript expression `a || b` where `a` is a possibly-`undefined`
value (`none` models `undefined`): yields `a` when truthy, else `b`. -/
def jsOrVal (a : Option JsVal) (b : JsVal) : JsVal :=
  match a with
  | some v => if truthy v then v else b
  | none => b

/-- Character-list prefix test, used to model `String.prototype.includes`. -/
def charsHavePre : List Char → List Char → Bool
  | [], _ => true
  | _ :: _, [] => false
  | p :: ps, c :: cs => p == c && charsHavePre ps cs

/-- Character-list substring test. -/
def charsContain (pat : List Char) : List Char → Bool
  | [] => charsHavePre pat []
  | c :: cs => charsHavePre pat (c :: cs) || charsContain pat cs

/-- JavaScript `s.includes(pat)`. -/
def jsIncludes (s pat : String) : Bool := charsContain pat.data s.data

/-- The fallback error message `text || \x60HTTP $\x7bres.status\x7d\x60`
shared by every version of `fetchJSON`. -/
def httpFallbackMsg (status : Nat) (text : String) : JsVal :=
  if text != "" then .str text else .str ("HTTP " ++ toString status)

/-- Model of `fetchJSON` (app.js lines 75-89).  Inputs are the observable
parts of the HTTP response: `ok` and `status` from the response object,
`text` the body text, and `data` the result of the guarded `JSON.parse`
(`none` models the `data = null` left by an empty or unparsable body).
The error message is `data?.detail || text || \x60HTTP ...\x60`; the
returned value carries the message before `new Error` string coercion. -/
def fetchJSON (ok : Bool) (status : Nat) (text : String) (data : Option JsVal) :
    Except JsVal (Option JsVal) :=
  if !ok then
    .error (jsOrVal (data.bind (fun v => getField v "detail")) (httpFallbackMsg status text))
  else
    .ok data

/-- Model of `fetchJSON` as written in part_000 lines 10-20 and part_001
lines 12-22: the message is the ternary
`(data && data.detail) ? data.detail : text || \x60HTTP ...\x60`. -/
def fetchJSONTern (ok : Bool) (status : Nat) (text : String) (data : Option JsVal) :
    Except JsVal (Option JsVal) :=
  if !ok then
    let cond : Option JsVal :=
      match data with
      | some v =>
        if truthy v then
          match getField v "detail" with
          | some d => if truthy d then some d else none
          | none => none
        else none
      | none => none
    let msg : JsVal :=
      match cond with
      | some d => d
      | none => httpFallbackMsg status text
    .error msg
  else
    .ok data

/-- Error message required by the amended claim: the `detail` field when the
body parses to an object with a truthy `detail`, otherwise the raw body text
when non-empty, otherwise `"HTTP <status>"`. -/
def specErrorMsg (status : Nat) (text : String) (data : Option JsVal) : JsVal :=
  match data with
  | some (.obj fields) =>
    match fields.lookup "detail" with
    | some d => if truthy d then d else httpFallbackMsg status text
    | none => httpFallbackMsg status text
  | _ => httpFallbackMsg status text

/-! ## Data model (spec section 3: external entities consumed by the client) -/

/-- A Trip as returned by `GET /api/trips`.  `distance_one_way_km` is `none`
when the field is absent (`undefined`) in the JSON. -/
structure Trip : Type where
  id : Nat
  trip_date : String
  purpose : String
  origin : String
  destination : String
  round_trip : Bool
  distance_km : ℚ
  distance_one_way_km : Option ℚ
deriving DecidableEq

/-- The Summary returned by `GET /api/summary` as consumed by app.js and
part_001 (field `reimbursement_dkk`). -/
structure Summary : Type where
  trip_count : Nat
  total_km : ℚ
  reimbursement_dkk : ℚ
  rate_high : ℚ
  rate_low : ℚ
deriving DecidableEq

/-- The Summary as consumed by part_000, whose rendering reads the field
`reimbursement_estimate_dkk`. -/
structure SummaryV0 : Type where
  trip_count : Nat
  total_km : ℚ
  reimbursement_estimate_dkk : ℚ
deriving DecidableEq

/-! ## escapeHtml (part_000 lines 55-57, part_001 lines 30-34) -/

/-- One step of the regex replace: the image of a single character under
`str.replace` with pattern `[&<>"']` and the entity lookup object. -/
def escapeChar (c : Char) : String :=
  if c = '&' then "&amp;"
  else if c = '<' then "&lt;"
  else if c = '>' then "&gt;"
  else if c = Char.ofNat 34 then "&quot;"
  else if c = Char.ofNat 39 then "&#039;"
  else String.singleton c

/-- The single left-to-right pass of the global regex replace over the
character sequence of the string. -/
def escapeScan : List Char → String
  | [] => ""
  | c :: cs => escapeChar c ++ escapeScan cs

/-- Model of `escapeHtml` from part_000/part_001: `(str || "")` maps a
nullish argument (`none`) to `""`, then each matched character is replaced. -/
def escapeHtml (str : Option String) : String :=
  escapeScan (str.getD "").data

/-- Per-character replacement table as the claim words it: each of the five
special characters goes to its entity, every other character is unchanged. -/
def claimEscapeChar (c : Char) : String :=
  if c = '&' then "&amp;"
  else if c = '<' then "&lt;"
  else if c = '>' then "&gt;"
  else if c = Char.ofNat 34 then "&quot;"
  else if c = Char.ofNat 39 then "&#039;"
  else String.singleton c

/-! ## app.js client state and filtering -/

/-- The values shown in the app.js stats bar by `updateStatsDisplay`
(app.js lines 404-422). -/
structure StatsBar : Type where
  trips : Nat
  km : ℚ
  amount : ℚ
  rate : ℚ
deriving DecidableEq

/-- The part of the app.js `state` object (lines 10-23) that the data flow of
the claims exercises, together with the module-level `yearlyRates` (line 392)
and the rendered stats bar.  `selectedMonth = none` models the string
`'all'`; `some m` models a numeric month tab. -/
structure AppState : Type where
  trips : List Trip
  filteredTrips : List Trip
  selectedMonth : Option Nat
  searchQuery : String
  activeFilter : String
  rateHigh : ℚ
  rateLow : ℚ
  stats : StatsBar
deriving DecidableEq

/-- Month of an ISO `YYYY-MM-DD` date string, modelling
`new Date(s).getMonth() + 1` on the dates this client handles: the two
digits at character positions 5 and 6. -/
def monthOfDate (s : String) : Nat :=
  match (s.data.drop 5).take 2 with
  | [c1, c2] =>
    if c1.isDigit && c2.isDigit then 10 * (c1.toNat - 48) + (c2.toNat - 48) else 0
  | _ => 0

/-- Model of `applyFilters` (app.js lines 442-472): three successive
`Array.filter` passes over a copy of `state.trips`, guarded exactly as in the
source, whose result is assigned to `state.filteredTrips`. -/
def applyFilters (st : AppState) : AppState :=
  let f0 := st.trips
  let f1 :=
    match st.selectedMonth with
    | some month => f0.filter (fun t => monthOfDate t.trip_date == month)
    | none => f0
  let f2 :=
    if st.searchQuery != "" then
      let query := st.searchQuery.toLower
      f1.filter (fun t =>
        jsIncludes t.purpose.toLower query ||
        jsIncludes t.origin.toLower query ||
        jsIncludes t.destination.toLower query)
    else f1
  let f3 :=
    if st.activeFilter == "round-trip" then f2.filter (fun t => t.round_trip)
    else if st.activeFilter == "one-way" then f2.filter (fun t => !t.round_trip)
    else f2
  { st with filteredTrips := f3 }

/-- The combined filter predicate as the claim words it: month matches when
one is selected, the lowercased query occurs in purpose, origin or
destination when a query is set, and `round_trip` matches the active type
filter. -/
def claimFilterPred (st : AppState) (t : Trip) : Bool :=
  (match st.selectedMonth with
   | some month => monthOfDate t.trip_date == month
   | none => true) &&
  (st.searchQuery == "" ||
    (jsIncludes t.purpose.toLower st.searchQuery.toLower ||
     jsIncludes t.origin.toLower st.searchQuery.toLower ||
     jsIncludes t.destination.toLower st.searchQuery.toLower)) &&
  (if st.activeFilter == "round-trip" then t.round_trip
   else if st.activeFilter == "one-way" then !t.round_trip
   else true)

/-- Model of `updateStatsDisplay` (app.js lines 404-422): totals over the
filtered trips via `reduce`, then the tiered Danish reimbursement formula
with threshold 20000 km. -/
def updateStatsDisplay (filteredTrips : List Trip) (high low : ℚ) : StatsBar :=
  let totalKm := filteredTrips.foldl (fun sum t => sum + t.distance_km) 0
  let tripCount := filteredTrips.length
  let threshold : ℚ := 20000
  let reimbursement :=
    if totalKm ≤ threshold then totalKm * high
    else threshold * high + (totalKm - threshold) * low
  { trips := tripCount, km := totalKm, amount := reimbursement, rate := high }

/-- Re-render of the stats bar from the current client state, as performed at
the end of `renderTrips` (line 481) and of `loadSummary` (line 398). -/
def renderStats (st : AppState) : AppState :=
  { st with stats := updateStatsDisplay st.filteredTrips st.rateHigh st.rateLow }

/-- State transformation of a completed `loadTrips` response (app.js lines
428-440): store the trips, apply the filters, re-render (which refreshes the
stats bar). -/
def loadTripsK (resp : List Trip) (st : AppState) : AppState :=
  renderStats (applyFilters { st with trips := resp })

/-- State transformation of a completed `loadSummary` response (app.js lines
394-402): store the rates from the summary and refresh the stats display. -/
def loadSummaryK (s : Summary) (st : AppState) : AppState :=
  renderStats { st with rateHigh := s.rate_high, rateLow := s.rate_low }

/-- State transformation of `selectMonth` (app.js lines 286-297): set the
month, re-apply the filters and re-render. -/
def selectMonthK (m : Option Nat) (st : AppState) : AppState :=
  renderStats (applyFilters { st with selectedMonth := m })

/-- The initial client state (app.js lines 10-23 and 392). -/
def initialState : AppState :=
  { trips := [], filteredTrips := [], selectedMonth := none,
    searchQuery := "", activeFilter := "all",
    rateHigh := 394/100, rateLow := 228/100,
    stats := updateStatsDisplay [] (394/100) (228/100) }

/-- Reimbursement figure displayed by part_000 (line 51): the summary text
interpolates `s.reimbursement_estimate_dkk` directly. -/
def displayedReimbursementV0 (s : SummaryV0) : ℚ :=
  s.reimbursement_estimate_dkk

/-- Reimbursement figure displayed by part_001 (lines 93-119): the summary
box interpolates `s.reimbursement_dkk` directly. -/
def displayedReimbursementV1 (s : Summary) : ℚ :=
  s.reimbursement_dkk

/-! ## Trip form submission (app.js lines 543-595, part_000 addTrip,
part_001 addTrip) -/

/-- A value placed in a request body by `JSON.stringify` of the payload
object: the payloads here hold only strings and booleans. -/
inductive BodyVal : Type where
  | s : String → BodyVal
  | b : Bool → BodyVal
deriving DecidableEq

/-- The trip form fields read at submission time.  `travel_mode` is the value
of the `travel_mode` input of part_000; app.js and part_001 have no such
input and never read this field. -/
structure TripForm : Type where
  trip_date : String
  purpose : String
  origin : String
  destination : String
  round_trip : Bool
  travel_mode : String
deriving DecidableEq

/-- An HTTP request issued through `fetchJSON`: method, url, and the
key/value pairs of the stringified JSON body in insertion order. -/
structure Request : Type where
  method : String
  url : String
  body : List (String × BodyVal)
deriving DecidableEq

/-- The request built by `handleTripFormSubmit` (app.js lines 543-595): a
PATCH with body `\x7btrip_date, purpose\x7d` when `state.editingTripId` is
set, otherwise a POST with the six creation fields and the constant
`travel_mode: 'DRIVE'`. -/
def handleTripFormSubmit (editingTripId : Option Nat) (f : TripForm) : Request :=
  match editingTripId with
  | some id =>
    { method := "PATCH"
      url := "/api/trips/" ++ toString id
      body := [("trip_date", .s f.trip_date), ("purpose", .s f.purpose)] }
  | none =>
    { method := "POST"
      url := "/api/trips"
      body := [("trip_date", .s f.trip_date), ("purpose", .s f.purpose),
               ("origin", .s f.origin), ("destination", .s f.destination),
               ("round_trip", .b f.round_trip), ("travel_mode", .s "DRIVE")] }

/-- The POST request built by `addTrip` in part_000 (lines 59-85):
`travel_mode` comes from the `travel_mode` form input. -/
def addTripV0 (f : TripForm) : Request :=
  { method := "POST"
    url := "/api/trips"
    body := [("trip_date", .s f.trip_date), ("purpose", .s f.purpose),
             ("origin", .s f.origin), ("destination", .s f.destination),
             ("round_trip", .b f.round_trip), ("travel_mode", .s f.travel_mode)] }

/-- The POST request built by `addTrip` in part_001 (lines 169-205):
`travel_mode` is the constant `'DRIVE'`. -/
def addTripV1 (f : TripForm) : Request :=
  { method := "POST"
    url := "/api/trips"
    body := [("trip_date", .s f.trip_date), ("purpose", .s f.purpose),
             ("origin", .s f.origin), ("destination", .s f.destination),
             ("round_trip", .b f.round_trip), ("travel_mode", .s "DRIVE")] }

/-! ## Calendar error handling (app.js lines 660-695) -/

/-- Which error UI the catch branch of `loadCalendarEvents` produces. -/
structure CalendarErrorUI : Type where
  toastShown : Bool
  notConnectedShown : Bool
deriving DecidableEq

/-- The catch branch of `loadCalendarEvents` (app.js lines 684-694) as a
function of the caught error message: when the message includes
`'not configured'` or `'501'` only the not-connected panel is shown,
otherwise an error toast is also shown. -/
def loadCalendarEventsCatch (msg : String) : CalendarErrorUI :=
  if jsIncludes msg "not configured" || jsIncludes msg "501" then
    { toastShown := false, notConnectedShown := true }
  else
    { toastShown := true, notConnectedShown := true }

/-! ## Displayed one-way distance (app.js line 495, part_001 line 136) -/

/-- The JavaScript expression `a || b` over a possibly-absent number:
`undefined` and `0` are falsy and select the fallback. -/
def jsOrNum (a : Option ℚ) (b : ℚ) : ℚ :=
  match a with
  | some d => if d != 0 then d else b
  | none => b

/-- The one-way distance rendered for a trip row:
`t.distance_one_way_km || (t.round_trip ? t.distance_km / 2 : t.distance_km)`
(app.js `renderTrips` line 495; identically part_001 `loadTrips` line 136). -/
def oneWayKm (t : Trip) : ℚ :=
  jsOrNum t.distance_one_way_km
    (if t.round_trip then t.distance_km / 2 else t.distance_km)

/-- The displayed one-way distance as the claim words it: the stored
`distance_one_way_km` when present and non-zero, otherwise half the total
distance for a round trip and the total distance for a one-way trip. -/
def claimOneWayKm (t : Trip) : ℚ :=
  match t.distance_one_way_km with
  | some d =>
    if d ≠ 0 then d
    else if t.round_trip then t.distance_km / 2 else t.distance_km
  | none => if t.round_trip then t.distance_km / 2 else t.distance_km

/-! ## The fetch structure of `refresh` in the three versions -/

/-- Deep embedding of the await structure of an async client routine, keeping
just the network requests: `fetch u` issues and awaits one request, `seq`
awaits its first component before starting the second (consecutive `await`s),
`par` starts both components together and awaits them jointly
(`Promise.all`). -/
inductive Prog : Type where
  | fetch : String → Prog
  | seq : Prog → Prog → Prog
  | par : Prog → Prog → Prog
deriving DecidableEq

/-- All request urls issued by a routine. -/
def fetchesOf : Prog → List String
  | .fetch u => [u]
  | .seq p q => fetchesOf p ++ fetchesOf q
  | .par p q => fetchesOf p ++ fetchesOf q

/-- Cross product of url lists. -/
def crossUrls (xs ys : List String) : List (String × String) :=
  xs.flatMap (fun x => ys.map (fun y => (x, y)))

/-- Pairs of requests issued together (started without waiting for each
other), i.e. sitting on the two sides of some `par`. -/
def concPairs : Prog → List (String × String)
  | .fetch _ => []
  | .seq p q => concPairs p ++ concPairs q
  | .par p q =>
    concPairs p ++ concPairs q ++
    crossUrls (fetchesOf p) (fetchesOf q) ++ crossUrls (fetchesOf q) (fetchesOf p)

/-- Pairs `(u, v)` such that the request to `v` is issued only after the
request to `u` has completed: `u` sits in the first and `v` in the second
component of some `seq`. -/
def seqAfterPairs : Prog → List (String × String)
  | .fetch _ => []
  | .seq p q => seqAfterPairs p ++ seqAfterPairs q ++ crossUrls (fetchesOf p) (fetchesOf q)
  | .par p q => seqAfterPairs p ++ seqAfterPairs q

/-- The `GET /api/trips?year=Y` url. -/
def tripsUrl (year : Nat) : String := "/api/trips?year=" ++ toString year

/-- The `GET /api/summary?year=Y` url. -/
def summaryUrl (year : Nat) : String := "/api/summary?year=" ++ toString year

/-- The three rewrites of the client. -/
inductive Version : Type where
  | v0 : Version
  | v1 : Version
  | v2 : Version
deriving DecidableEq

/-- The fetch structure of `refresh` in each version.  part_000 (lines
25-53) awaits the trips request, renders the table, then issues the summary
request; part_001 (lines 160-167) and app.js (lines 639-641) run
`Promise.all([loadTrips(), loadSummary()])`, each of which issues one
request. -/
def refreshProg (v : Version) (year : Nat) : Prog :=
  match v with
  | .v0 => .seq (.fetch (tripsUrl year)) (.fetch (summaryUrl year))
  | .v1 => .par (.fetch (tripsUrl year)) (.fetch (summaryUrl year))
  | .v2 => .par (.fetch (tripsUrl year)) (.fetch (summaryUrl year))

/-- The claim's concurrency property for one version and year: the trips and
summary requests are issued together, and neither is issued only after the
other has completed. -/
def jointlyIssued (v : Version) (year : Nat) : Prop :=
  (tripsUrl year, summaryUrl year) ∈ concPairs (refreshProg v year) ∧
  (tripsUrl year, summaryUrl year) ∉ seqAfterPairs (refreshProg v year) ∧
  (summaryUrl year, tripsUrl year) ∉ seqAfterPairs (refreshProg v year)

/-! ## Concrete scenario used for the reimbursement counterexample -/

/-- A single March trip of 10 km. -/
def demoTrip : Trip :=
  { id := 1, trip_date := "2024-03-15", purpose := "Kundebesoeg",
    origin := "Hjem", destination := "Kontor", round_trip := true,
    distance_km := 10, distance_one_way_km := some 5 }

/-- The server summary consistent with `demoTrip` being the only 2024 trip:
10 km at the high rate 3.94 kr/km gives the estimate 39.40 kr. -/
def demoSummary : Summary :=
  { trip_count := 1, total_km := 10, reimbursement_dkk := 197/5,
    rate_high := 394/100, rate_low := 228/100 }

/-- The body text of an HTTP error response whose JSON is an object with an
empty `detail` field: the literal text is the seven characters of
a JSON object with key `detail` and value the empty string, so `JSON.parse`
of it yields `JsVal.obj [("detail", JsVal.str "")]`. -/
def emptyDetailBody : String := "\x7b\x22detail\x22:\x22\x22\x7d"

/-! ## Helper lemmas -/

theorem foldl_add_distance (l : List Trip) (a : ℚ) :
    l.foldl (fun sum t => sum + t.distance_km) a = a + (l.map Trip.distance_km).sum := by
  induction l generalizing a with
  | nil => simp
  | cons h t ih => simp [ih]; ring

theorem escapeScan_append (l1 l2 : List Char) :
    escapeScan (l1 ++ l2) = escapeScan l1 ++ escapeScan l2 := by
  induction l1 with
  | nil => simp [escapeScan]
  | cons c cs ih => simp [escapeScan, ih, String.append_assoc]

theorem foldl_append_join (l : List String) (a : String) :
    List.foldl (fun r s => r ++ s) a l = a ++ String.join l := by
  induction l generalizing a with
  | nil =>
    show a = a ++ String.join []
    rw [show String.join ([] : List String) = "" from rfl, String.append_empty]
  | cons h t ih =>
    show List.foldl (fun r s => r ++ s) (a ++ h) t = a ++ String.join (h :: t)
    have hj : String.join (h :: t) = h ++ String.join t := by
      show List.foldl (fun r s => r ++ s) ("" ++ h) t = h ++ String.join t
      rw [String.empty_append, ih]
    rw [ih, hj, String.append_assoc]

theorem escapeScan_eq_join (l : List Char) :
    escapeScan l = String.join (l.map claimEscapeChar) := by
  induction l with
  | nil => rfl
  | cons c cs ih =>
    show escapeChar c ++ escapeScan cs = String.join (claimEscapeChar c :: cs.map claimEscapeChar)
    have hj : String.join (claimEscapeChar c :: cs.map claimEscapeChar) =
        claimEscapeChar c ++ String.join (cs.map claimEscapeChar) := by
      show List.foldl (fun r s => r ++ s) ("" ++ claimEscapeChar c) (cs.map claimEscapeChar) = _
      rw [String.empty_append, foldl_append_join]
    rw [hj, ih, show escapeChar = claimEscapeChar from rfl]

/-! ## Claim theorems -/

/-- C2: for every list of filtered trips with total distance `T` (the sum of
`distance_km`), the reimbursement amount shown in the stats bar equals
`T * rate_high` when `T ≤ 20000` and
`20000 * rate_high + (T - 20000) * rate_low` when `T > 20000`. -/
theorem stats_amount_tiered (trips : List Trip) (high low : ℚ) :
    (updateStatsDisplay trips high low).amount =
      (if (trips.map Trip.distance_km).sum ≤ 20000 then
        (trips.map Trip.distance_km).sum * high
      else
        20000 * high + ((trips.map Trip.distance_km).sum - 20000) * low) := by
  simp [updateStatsDisplay, foldl_add_distance]

/-- C5: while a trip is being edited (`state.editingTripId` set), submitting
the trip form sends a PATCH to `/api/trips/(id)` whose body holds exactly
`trip_date` and `purpose`; `origin`, `destination`, `round_trip` and
`travel_mode` are never part of an edit request. -/
theorem patch_body_exactly_date_purpose (id : Nat) (f : TripForm) :
    (handleTripFormSubmit (some id) f).method = "PATCH" ∧
    (handleTripFormSubmit (some id) f).url = "/api/trips/" ++ toString id ∧
    (handleTripFormSubmit (some id) f).body =
      [("trip_date", .s f.trip_date), ("purpose", .s f.purpose)] ∧
    "origin" ∉ ((handleTripFormSubmit (some id) f).body.map Prod.fst) ∧
    "destination" ∉ ((handleTripFormSubmit (some id) f).body.map Prod.fst) ∧
    "round_trip" ∉ ((handleTripFormSubmit (some id) f).body.map Prod.fst) ∧
    "travel_mode" ∉ ((handleTripFormSubmit (some id) f).body.map Prod.fst) := by
  refine ⟨rfl, rfl, rfl, ?_, ?_, ?_, ?_⟩ <;> simp [handleTripFormSubmit]

/-- C6: submitting the add-trip form (no trip being edited) issues a POST to
`/api/trips` whose body holds exactly `trip_date`, `purpose`, `origin`,
`destination`, `round_trip` and `travel_mode`, each from the corresponding
form field; `travel_mode` is the constant `'DRIVE'` in app.js and part_001
(which have no travel-mode input) and the `travel_mode` input in part_000. -/
theorem post_body_fields (f : TripForm) :
    handleTripFormSubmit none f =
      { method := "POST", url := "/api/trips",
        body := [("trip_date", .s f.trip_date), ("purpose", .s f.purpose),
                 ("origin", .s f.origin), ("destination", .s f.destination),
                 ("round_trip", .b f.round_trip), ("travel_mode", .s "DRIVE")] } ∧
    addTripV1 f = handleTripFormSubmit none f ∧
    addTripV0 f =
      { method := "POST", url := "/api/trips",
        body := [("trip_date", .s f.trip_date), ("purpose", .s f.purpose),
                 ("origin", .s f.origin), ("destination", .s f.destination),
                 ("round_trip", .b f.round_trip), ("travel_mode", .s f.travel_mode)] } ∧
    ((handleTripFormSubmit none f).body.map Prod.fst =
      ["trip_date", "purpose", "origin", "destination", "round_trip", "travel_mode"]) ∧
    ((addTripV0 f).body.map Prod.fst =
      ["trip_date", "purpose", "origin", "destination", "round_trip", "travel_mode"]) :=
  ⟨rfl, rfl, rfl, rfl, rfl⟩

/-- C7: when loading calendar events fails, the not-connected panel is shown
for every failure, and the error toast is suppressed exactly when the error
message contains the substring `'not configured'` or the substring `'501'`. -/
theorem calendar_error_handling (msg : String) :
    (loadCalendarEventsCatch msg).notConnectedShown = true ∧
    ((loadCalendarEventsCatch msg).toastShown = false ↔
      (jsIncludes msg "not configured" = true ∨ jsIncludes msg "501" = true)) := by
  unfold loadCalendarEventsCatch
  by_cases h : (jsIncludes msg "not configured" || jsIncludes msg "501") = true
  · rw [if_pos h]
    simp only [Bool.or_eq_true] at h
    exact ⟨rfl, fun _ => h, fun _ => rfl⟩
  · rw [if_neg h]
    simp only [Bool.or_eq_true] at h
    exact ⟨rfl, fun hf => absurd hf (by decide), fun hcon => absurd hcon h⟩

/-- C9: `escapeHtml` returns `""` on a nullish input, and on a string input
replaces each occurrence of the five characters `& < > " '` by its HTML
entity and leaves every other character unchanged — it is the concatenation
of the per-character replacement table over the characters of the input, and
distributes over string concatenation. -/
theorem escapeHtml_characterwise :
    escapeHtml none = "" ∧
    (∀ s : String, escapeHtml (some s) = String.join (s.data.map claimEscapeChar)) ∧
    (∀ l1 l2 : List Char, escapeScan (l1 ++ l2) = escapeScan l1 ++ escapeScan l2) ∧
    claimEscapeChar '&' = "&amp;" ∧
    claimEscapeChar '<' = "&lt;" ∧
    claimEscapeChar '>' = "&gt;" ∧
    claimEscapeChar (Char.ofNat 34) = "&quot;" ∧
    claimEscapeChar (Char.ofNat 39) = "&#039;" ∧
    (∀ c : Char, c ≠ '&' → c ≠ '<' → c ≠ '>' → c ≠ Char.ofNat 34 →
      c ≠ Char.ofNat 39 → claimEscapeChar c = String.singleton c) := by
  refine ⟨rfl, ?_, escapeScan_append, rfl, rfl, rfl, rfl, rfl, ?_⟩
  · intro s
    exact escapeScan_eq_join s.data
  · intro c h1 h2 h3 h4 h5
    simp [claimEscapeChar, h1, h2, h3, h4, h5]

/-- C9 witness: the theorem applied at the concrete character `a`, whose
hypotheses are discharged by computation. -/
theorem escapeHtml_characterwise_witness :
    claimEscapeChar (Char.ofNat 97) = String.singleton (Char.ofNat 97) :=
  escapeHtml_characterwise.2.2.2.2.2.2.2.2 (Char.ofNat 97)
    (by decide) (by decide) (by decide) (by decide) (by decide)

/-- C10: the one-way distance rendered for a trip equals
`distance_one_way_km` when that field is present and non-zero, and otherwise
`distance_km / 2` for a round trip and `distance_km` for a one-way trip; a
stored `distance_one_way_km` of exactly `0` is ignored in favour of the
fallback. -/
theorem oneWay_display_spec (t : Trip) : oneWayKm t = claimOneWayKm t := by
  unfold oneWayKm claimOneWayKm jsOrNum
  cases t.distance_one_way_km with
  | none => rfl
  | some d =>
    by_cases h : d = 0 <;> simp [h]

/-- C3 counterexample: on a failing response whose body is the JSON object
text with an empty-string `detail` field (so the body parses to an object
with a `detail` field), every version of `fetchJSON` throws the raw body
text, not the `detail` value, because `data.detail` is falsy — refuting the
claim that the message is the `detail` field whenever the body parses to an
object with `detail`. -/
theorem fetchJSON_empty_detail_cex :
    fetchJSON false 400 emptyDetailBody (some (JsVal.obj [("detail", JsVal.str "")])) =
      Except.error (JsVal.str emptyDetailBody) ∧
    fetchJSONTern false 400 emptyDetailBody (some (JsVal.obj [("detail", JsVal.str "")])) =
      Except.error (JsVal.str emptyDetailBody) ∧
    JsVal.str emptyDetailBody ≠ JsVal.str "" := by
  refine ⟨rfl, rfl, ?_⟩
  intro h
  injection h with h2
  exact absurd h2 (by decide)

/-- C3 amended: `fetchJSON` throws exactly on a non-ok response, with message
the `detail` field when the parsed body is an object with a truthy (e.g.
non-empty) `detail`, otherwise the raw body text when non-empty, otherwise
`"HTTP <status>"`; on an ok response it returns the parsed data, which is
`null` for an empty or unparsable body.  The ternary form of part_000 and
part_001 behaves identically to the app.js form. -/
theorem fetchJSON_spec (ok : Bool) (status : Nat) (text : String) (data : Option JsVal) :
    fetchJSON ok status text data =
      (if ok then Except.ok data else Except.error (specErrorMsg status text data)) ∧
    fetchJSONTern ok status text data = fetchJSON ok status text data := by
  constructor
  · cases ok with
    | true => rfl
    | false =>
      show Except.error _ = Except.error _
      congr 1
      cases data with
      | none => rfl
      | some v =>
        cases v with
        | null => rfl
        | bool b => rfl
        | num q => rfl
        | str s => rfl
        | arr xs => rfl
        | obj fs =>
          show jsOrVal (fs.lookup "detail") _ = _
          cases hl : fs.lookup "detail" with
          | none => simp [jsOrVal, specErrorMsg, hl]
          | some d => simp [jsOrVal, specErrorMsg, hl]
  · cases ok with
    | true => rfl
    | false =>
      show Except.error _ = Except.error _
      congr 1
      cases data with
      | none => rfl
      | some v =>
        cases v with
        | null => rfl
        | bool b => cases b <;> rfl
        | num q =>
          by_cases hq : (q != 0) = true <;>
            simp [truthy, getField, jsOrVal, hq]
        | str s =>
          by_cases hs : (s != "") = true <;>
            simp [truthy, getField, jsOrVal, hs]
        | arr xs => rfl
        | obj fs =>
          show (match
              (match fs.lookup "detail" with
               | some d => if truthy d then some d else none
               | none => none) with
            | some d => d
            | none => httpFallbackMsg status text) =
            jsOrVal (fs.lookup "detail") (httpFallbackMsg status text)
          cases hl : fs.lookup "detail" with
          | none => simp [jsOrVal]
          | some d => by_cases ht : truthy d = true <;> simp [jsOrVal, ht]

/-- C8: after `applyFilters` runs, `state.filteredTrips` is exactly the
order-preserving sublist (`List.filter`) of `state.trips` whose elements
satisfy all active filters, and `state.trips` itself is unchanged. -/
theorem applyFilters_spec (st : AppState) :
    (applyFilters st).filteredTrips = st.trips.filter (claimFilterPred st) ∧
    (applyFilters st).trips = st.trips := by
  refine ⟨?_, rfl⟩
  unfold applyFilters claimFilterPred
  rcases hm : st.selectedMonth with _ | month <;>
    rcases hq : st.searchQuery == "" <;>
      rcases hr : st.activeFilter == "round-trip" <;>
        rcases ho : st.activeFilter == "one-way" <;>
          simp [hm, hq, hr, ho, bne, List.filter_filter] <;>
          first
          | rfl
          | (apply List.filter_congr
             intro t _
             simp [Bool.and_comm, Bool.and_left_comm, Bool.and_assoc])

/-- C1 counterexample: a consistent scenario in which app.js displays a
reimbursement figure different from the server's estimate.  The server
reports the 2024 estimate 39.40 kr (one 10 km trip at 3.94 kr/km); the user
selects the April tab, the filtered list becomes empty, and `renderTrips` /
`updateStatsDisplay` shows 0.00 kr — a value recomputed client-side, not the
summary's estimate. -/
theorem appjs_amount_ne_server_estimate :
    (selectMonthK (some 4)
        (loadTripsK [demoTrip] (loadSummaryK demoSummary initialState))).stats.amount ≠
      demoSummary.reimbursement_dkk := by
  simp +decide [selectMonthK, loadTripsK, loadSummaryK, renderStats, applyFilters,
    updateStatsDisplay, initialState, demoTrip, demoSummary]
  norm_num

/-- C1 amended: part_000 and part_001 display exactly the reimbursement
estimate returned by `GET /api/summary`; app.js instead recomputes the
displayed amount client-side from the filtered trips' distances and the
server-provided rates with the tiered 20000 km threshold. -/
theorem displayed_reimbursement_by_version :
    (∀ s : SummaryV0, displayedReimbursementV0 s = s.reimbursement_estimate_dkk) ∧
    (∀ s : Summary, displayedReimbursementV1 s = s.reimbursement_dkk) ∧
    (∀ st : AppState,
      (renderStats st).stats.amount =
        (if (st.filteredTrips.map Trip.distance_km).sum ≤ 20000 then
          (st.filteredTrips.map Trip.distance_km).sum * st.rateHigh
        else
          20000 * st.rateHigh +
            ((st.filteredTrips.map Trip.distance_km).sum - 20000) * st.rateLow)) := by
  refine ⟨fun s => rfl, fun s => rfl, fun st => ?_⟩
  simp [renderStats, updateStatsDisplay, foldl_add_distance]

/-- C4 counterexample: in part_000 the summary request of `refresh` is
issued only after the trips request has completed (they sit on the two sides
of a sequential await), and the two requests are never issued together —
refuting the claim for the part_000 version at year 2024. -/
theorem refresh_v0_sequential_cex :
    (tripsUrl 2024, summaryUrl 2024) ∈ seqAfterPairs (refreshProg .v0 2024) ∧
    (tripsUrl 2024, summaryUrl 2024) ∉ concPairs (refreshProg .v0 2024) := by
  exact ⟨by decide, by decide⟩

/-- C4 amended: in app.js and part_001, `refresh` issues the trips and
summary requests together under `Promise.all` with no ordering dependency,
and the resulting client state is the same whichever response is applied
first; in part_000 the summary request is issued only after the trips
request has completed. -/
theorem refresh_concurrency_by_version :
    (∀ year : Nat, jointlyIssued .v1 year) ∧
    (∀ year : Nat, jointlyIssued .v2 year) ∧
    (∀ year : Nat, (tripsUrl year, summaryUrl year) ∈ seqAfterPairs (refreshProg .v0 year)) ∧
    (∀ (resp : List Trip) (s : Summary) (st : AppState),
      loadTripsK resp (loadSummaryK s st) = loadSummaryK s (loadTripsK resp st)) := by
  refine ⟨?_, ?_, ?_, ?_⟩
  · intro year
    refine ⟨?_, ?_, ?_⟩ <;>
      simp [jointlyIssued, refreshProg, concPairs, seqAfterPairs, crossUrls, fetchesOf]
  · intro year
    refine ⟨?_, ?_, ?_⟩ <;>
      simp [jointlyIssued, refreshProg, concPairs, seqAfterPairs, crossUrls, fetchesOf]
  · intro year
    simp [refreshProg, seqAfterPairs, crossUrls, fetchesOf]
  · intro resp s st
    rfl

end Mileage
